import Mathlib

/-!
Verification of the roommate/apartment matching pipeline (RoomEase MVP).

This file gives a shallow embedding, in Lean 4, of the deterministic parts of
the retrieval-and-ranking pipeline implemented in `rag_backend1.py`,
`rag_backend.py`, `apartment_description_summarizer.py`, `embeddings.py` and
`llm_pipeline.py`, and proves (or refutes) the specification claims about it.

Modelling conventions:
- Python strings are Lean `String`s; the Python operations used by the source
  (`strip`, `lower`, `replace`, `split`, `splitlines`, slicing, substring
  tests, `startswith`) are re-implemented over `List Char` so that every
  definition is executable and kernel-reducible.
- Python numbers are embedded as `Int` / `ℚ`; Python `None`, `bool`, `int`,
  `float`, `str` values flowing out of `dict.get` are the inductive `PyVal`.
- JSON documents are the inductive `JVal`; `json.loads` is the executable
  recursive-descent parser `jsonLoads` (fuel-indexed, structurally
  recursive).  Minor simplifications relative to CPython `json` are noted at
  the definitions; none is exercised by any theorem below.
- LLM and vector-store responses are oracle arguments: each orchestrator is a
  pure function of the query and of the external responses it receives, and
  additionally returns the list of external calls it performed, in order.
- A Python function body is modelled by a function into `PyRes`:
  `PyRes.ret s` is a normal `return s`, `PyRes.raised e` is an unhandled
  exception propagating to the caller.
-/

namespace RoomEase

/-! ## Python string primitives -/

/-- Whitespace as recognised by Python `str.strip` (restricted to the ASCII
whitespace actually occurring in this code base). -/
def isPyWs (c : Char) : Bool :=
  c = ' ' || c = '\t' || c = '\n' || c = '\r'

/-- Python `s.strip()` on the character list. -/
def stripList (l : List Char) : List Char :=
  ((l.dropWhile isPyWs).reverse.dropWhile isPyWs).reverse

/-- Python `s.strip()`. -/
def pyStrip (s : String) : String :=
  String.mk (stripList s.data)

/-- Python `s.lower()` (ASCII case folding, matching the data in this repo). -/
def pyLower (s : String) : String :=
  String.mk (s.data.map Char.toLower)

/-- Prefix test on character lists. -/
def listIsPrefix : List Char → List Char → Bool
  | [], _ => true
  | _ :: _, [] => false
  | p :: ps, c :: cs => p = c && listIsPrefix ps cs

/-- Substring search on character lists: Python `needle in hay`. -/
def listContains (needle : List Char) : List Char → Bool
  | [] => listIsPrefix needle []
  | c :: cs => listIsPrefix needle (c :: cs) || listContains needle cs

/-- Python `needle in hay` for strings. -/
def pyIn (needle hay : String) : Bool :=
  listContains needle.data hay.data

/-- Python `s.startswith(p)`. -/
def pyStartsWith (s p : String) : Bool :=
  listIsPrefix p.data s.data

/-- One pass of Python `s.replace(pat, repl)` (left-to-right, non-overlapping),
with explicit fuel; called with fuel = length of the subject so the fuel never
runs out.  An empty pattern leaves the subject unchanged (CPython would
interleave `repl` between characters; no call site uses an empty pattern). -/
def replaceAllAux (pat repl : List Char) : Nat → List Char → List Char
  | 0, s => s
  | _ + 1, [] => []
  | fuel + 1, c :: cs =>
    if !pat.isEmpty && listIsPrefix pat (c :: cs) then
      repl ++ replaceAllAux pat repl fuel ((c :: cs).drop pat.length)
    else
      c :: replaceAllAux pat repl fuel cs

/-- Python `s.replace(pat, repl)`. -/
def pyReplace (s pat repl : String) : String :=
  String.mk (replaceAllAux pat.data repl.data s.data.length s.data)

/-- Python slicing `s[n:]` (by code points). -/
def pySliceFrom (s : String) (n : Nat) : String :=
  String.mk (s.data.drop n)

/-- Python `len(s)` (code points). -/
def pyLen (s : String) : Nat :=
  s.data.length

/-- Python `"sep".join(parts)` specialised to what the source needs. -/
def joinSep (sep : String) : List String → String
  | [] => ""
  | [x] => x
  | x :: y :: rest => x ++ sep ++ joinSep sep (y :: rest)

/-- Python `s.split(sep, maxsplit)` for a one-character separator. -/
def splitLimitAux (sep : Char) : Nat → List Char → List (List Char)
  | 0, s => [s]
  | maxsplit + 1, s =>
    let pre := s.takeWhile (· ≠ sep)
    let rest := s.dropWhile (· ≠ sep)
    match rest with
    | [] => [s]
    | _ :: tail => pre :: splitLimitAux sep maxsplit tail

/-- Python `s.split("|", maxsplit)` (the only split the source performs). -/
def pySplitLimit (s : String) (sep : Char) (maxsplit : Nat) : List String :=
  (splitLimitAux sep maxsplit s.data).map String.mk

/-- Python `s.splitlines()` restricted to the line breaks `\r\n`, `\r`, `\n`. -/
def splitLinesAux : List Char → List Char → List (List Char)
  | cur, [] => if cur.isEmpty then [] else [cur.reverse]
  | cur, '\r' :: '\n' :: rest => cur.reverse :: splitLinesAux [] rest
  | cur, '\r' :: rest => cur.reverse :: splitLinesAux [] rest
  | cur, '\n' :: rest => cur.reverse :: splitLinesAux [] rest
  | cur, c :: rest => splitLinesAux (c :: cur) rest

/-- Python `s.splitlines()`. -/
def pySplitLines (s : String) : List String :=
  (splitLinesAux [] s.data).map String.mk

/-! ## Exact decimal numbers

JSON literals and the numbers the pipeline compares and formats are decimal;
they are embedded as an exact mantissa-times-power-of-ten representation so
that every operation kernel-reduces.  (CPython stores them as binary doubles;
the difference is far below anything the pipeline's comparisons or two-digit
formatting can observe on the values occurring here.) -/

/-- An exact decimal number `mant * 10 ^ exp`. -/
structure Dec where
  mant : Int
  exp : Int
deriving DecidableEq

/-- The rational value of a decimal. -/
def Dec.toRat (d : Dec) : ℚ :=
  (d.mant : ℚ) * (10 : ℚ) ^ d.exp

/-- Decidable comparison of two decimals by cross-scaling to a common
exponent (integer arithmetic only). -/
def Dec.ble (a b : Dec) : Bool :=
  let k : Int := min a.exp b.exp
  decide (a.mant * 10 ^ (a.exp - k).toNat ≤ b.mant * 10 ^ (b.exp - k).toNat)

/-- The integer decimal `n`. -/
def Dec.ofInt (n : Int) : Dec :=
  ⟨n, 0⟩

/-- Python format `f"{q:.2f}"` for a decimal.  A value that is not an exact
hundredth is rounded half-up rather than with CPython float round-half-even;
every value formatted by a theorem below is an exact hundredth, where the two
agree. -/
def Dec.format2 (x : Dec) : String :=
  let e : Int := x.exp + 2
  let m : Int :=
    if 0 ≤ e then x.mant * 10 ^ e.toNat
    else
      let d : Int := 10 ^ (-e).toNat
      Int.fdiv (2 * x.mant + d) (2 * d)
  let sign := if m < 0 then "-" else ""
  let a := m.natAbs
  let frac := a % 100
  sign ++ toString (a / 100) ++ "." ++
    (if frac < 10 then "0" ++ toString frac else toString frac)

example : Dec.format2 ⟨9, 0⟩ = "9.00" := by decide
example : Dec.format2 ⟨55, -1⟩ = "5.50" := by decide
example : Dec.ble ⟨7, 0⟩ ⟨95, -1⟩ = true := by decide
example : Dec.ble ⟨95, -1⟩ ⟨7, 0⟩ = false := by decide

/-! ## Word-boundary pattern search

`filter_students` matches a fixed list of literal phrases wrapped in regex
word boundaries (and one optional-plural `stick(s)?`, expanded below into its
two literal alternatives).  Every pattern starts and ends with a letter, so a
boundary holds exactly when the neighbouring character is absent or is not a
word character. -/

/-- Regex `\w` (ASCII range; the matched text is lowercased ASCII). -/
def isWordChar (c : Char) : Bool :=
  c.isAlphanum || c = '_'

/-- Match the pattern at the head of the text, then require a word boundary. -/
def wordMatchAt : List Char → List Char → Bool
  | [], [] => true
  | [], c :: _ => !isWordChar c
  | _ :: _, [] => false
  | p :: ps, c :: cs => p = c && wordMatchAt ps cs

/-- Search for the pattern at every position; `prev` is the character to the
left of the current position (for the leading word boundary). -/
def wordSearchAux (pat : List Char) : Option Char → List Char → Bool
  | prev, s =>
    ((match prev with
      | none => true
      | some c => !isWordChar c) && wordMatchAt pat s) ||
    match s with
    | [] => false
    | c :: cs => wordSearchAux pat (some c) cs

/-- Python `re.search(r"\b" + phrase + r"\b", text)` viewed as a Boolean, for
the literal phrases used by `filter_students`. -/
def reSearchWord (phrase text : String) : Bool :=
  wordSearchAux phrase.data none text.data

example : reSearchWord "strict routine" "keeps a strict routine daily" = true := by decide
example : reSearchWord "strict routine" "strict routines" = false := by decide
example : reSearchWord "regimented" "unregimented" = false := by decide

/-! ## Student metadata and the deterministic filter (`rag_backend1.filter_students`) -/

/-- The metadata mapping attached to a student chunk, restricted to the keys
`filter_students` and its callers read.  `none` models an absent key (or a
stored `None`, which the source treats identically through `meta.get`). -/
structure StudentMeta where
  name : Option String
  personality : Option String
  lifestyle_summary : Option String
  sleep_schedule : Option String
  noise_tolerance : Option String
  dog_friendliness : Option String
  cleanliness : Option String
  study_habits : Option String
  chunk_index : Option Int
deriving DecidableEq

/-- The dictionary `filter_students` appends for each accepted candidate. -/
structure Student where
  name : String
  personality : Option String
  lifestyle : String
  sleep : String
  noise : String
  dog : String
  cleanliness : Option String
  study : Option String
  raw : String
  meta : StudentMeta
deriving DecidableEq

/-- The `structured_patterns` list of `filter_students`, with
`stick(s)? to routine` expanded into its two literal alternatives. -/
def structuredPatterns : List String :=
  [ "highly conscientious", "high conscientiousness", "very conscientious",
    "high in conscientiousness", "strict routine", "very strict",
    "highly structured", "very structured", "structured routine",
    "regimented", "stick to routine", "sticks to routine" ]

/-- Python `(meta.get(k) or "")`: absent key (or stored empty string) gives
the empty string. -/
def getOrEmpty (o : Option String) : String :=
  o.getD ""

/-- The three exclusion rules of `filter_students` (a candidate matching any
rule is skipped by `continue`). -/
def excluded (meta : StudentMeta) : Bool :=
  let dog := pyLower (getOrEmpty meta.dog_friendliness)
  let lifestyle := pyLower (getOrEmpty meta.lifestyle_summary)
  let sleep := pyLower (getOrEmpty meta.sleep_schedule)
  let noise := pyLower (getOrEmpty meta.noise_tolerance)
  (pyIn "allergic" dog || pyIn "pet allergic" dog || pyIn "no dogs" dog) ||
  (structuredPatterns.any fun p => reSearchWord p lifestyle) ||
  ((pyIn "noise sensitive" lifestyle || pyIn "noise sensitive" noise) &&
    (pyIn "10" sleep || pyIn "10:" sleep))

/-- Python `f"Candidate_{meta.get('chunk_index')}"`: an `f`-string renders the
value `None` as the text `None` and an int in decimal. -/
def reprOptInt : Option Int → String
  | none => "None"
  | some n => toString n

/-- The display name: the `name` metadata unless it is absent, empty or the
text `not specified`, in which case a placeholder from `chunk_index`. -/
def displayName (meta : StudentMeta) : String :=
  match meta.name with
  | none => "Candidate_" ++ reprOptInt meta.chunk_index
  | some s =>
    if s = "" || s = "not specified" then "Candidate_" ++ reprOptInt meta.chunk_index
    else s

/-- The record appended for an accepted `(doc, meta)` pair. -/
def mkStudent (doc : String) (meta : StudentMeta) : Student :=
  { name := displayName meta
    personality := meta.personality
    lifestyle := pyLower (getOrEmpty meta.lifestyle_summary)
    sleep := pyLower (getOrEmpty meta.sleep_schedule)
    noise := pyLower (getOrEmpty meta.noise_tolerance)
    dog := pyLower (getOrEmpty meta.dog_friendliness)
    cleanliness := meta.cleanliness
    study := meta.study_habits
    raw := doc
    meta := meta }

/-- `filter_students(docs, metas)`: iterate over `zip(docs, metas)` in order,
skip candidates matching any exclusion rule, append the annotated record for
the rest. -/
def filter_students (docs : List String) (metas : List StudentMeta) : List Student :=
  ((docs.zip metas).filter fun p => !excluded p.2).map fun p => mkStudent p.1 p.2

/-- A metadata row with every field absent. -/
def emptyMeta : StudentMeta :=
  { name := none, personality := none, lifestyle_summary := none,
    sleep_schedule := none, noise_tolerance := none, dog_friendliness := none,
    cleanliness := none, study_habits := none, chunk_index := none }

example :
    filter_students ["d1"] [{ emptyMeta with dog_friendliness := some "Allergic to dogs" }] = [] := by
  decide

example :
    (filter_students ["d1"] [{ emptyMeta with name := some "Ana" }]).map Student.name = ["Ana"] := by
  decide

example :
    filter_students ["d1"]
      [{ emptyMeta with lifestyle_summary := some "Keeps a highly structured day" }] = [] := by
  decide

example :
    filter_students ["d1"]
      [{ emptyMeta with noise_tolerance := some "noise sensitive",
                        sleep_schedule := some "sleeps at 10:30pm" }] = [] := by
  decide

/-! ## Python values and the effective-budget computation
(`rag_backend1.recommend_apartments`, lines 394-403) -/

/-- A Python value as produced by `dict.get` on a decoded JSON document:
absent-or-null, bool, int, float, or string. -/
inductive PyVal where
  | none
  | bool (b : Bool)
  | int (n : Int)
  | float (q : ℚ)
  | str (s : String)
deriving DecidableEq

/-- Python `isinstance(v, int)`; `bool` is a subclass of `int`. -/
def isinstanceInt : PyVal → Bool
  | .int _ => true
  | .bool _ => true
  | _ => false

/-- Python `isinstance(v, (int, float))`. -/
def isinstanceIntOrFloat : PyVal → Bool
  | .int _ => true
  | .bool _ => true
  | .float _ => true
  | _ => false

/-- The integer value of a Python int-like value (`True` counts as 1). -/
def intVal : PyVal → Int
  | .int n => n
  | .bool b => if b then 1 else 0
  | _ => 0

/-- The numeric value of a Python number. -/
def numVal : PyVal → ℚ
  | .int n => (n : ℚ)
  | .bool b => if b then 1 else 0
  | .float q => q
  | _ => 0

/-- `total_people = (roommates + 1) if isinstance(roommates, int) and
roommates > 0 else None`. -/
def total_people (roommates : PyVal) : Option Int :=
  if isinstanceInt roommates && decide (0 < intVal roommates) then
    some (intVal roommates + 1)
  else
    Option.none

/-- `effective_budget`: starts as `None`; set to
`budget_per_person * total_people` only when `budget_per_person` is numeric
and `total_people` is truthy; otherwise kept `None` ("no budget
constraint"). -/
def effective_budget (budget_per_person roommates : PyVal) : Option ℚ :=
  match total_people roommates with
  | some t =>
    if isinstanceIntOrFloat budget_per_person && decide (t ≠ 0) then
      some (numVal budget_per_person * (t : ℚ))
    else
      Option.none
  | Option.none => Option.none

example : effective_budget (.int 1000) (.int 2) = some 3000 := by
  simp [effective_budget, total_people, isinstanceInt, isinstanceIntOrFloat, intVal, numVal]
  norm_num
example : effective_budget (.int 1000) .none = Option.none := by decide
example : effective_budget (.int 1000) (.int 0) = Option.none := by decide
example : effective_budget (.float (3/2)) (.int 1) = some 3 := by
  simp [effective_budget, total_people, isinstanceInt, isinstanceIntOrFloat, intVal, numVal]

/-! ## JSON documents and `json.loads`

An executable model of the strict-mode CPython `json.loads` used by the
pipeline.  Simplifications (none observable by any theorem below): numbers
are exact decimals rather than binary doubles; leading-zero integers and raw
control characters inside strings are not rejected. -/

/-- A decoded JSON document.  Objects keep their fields in source order;
`dictGet` below reproduces the last-wins semantics of a Python dict built
from duplicate keys. -/
inductive JVal where
  | null
  | bool (b : Bool)
  | num (v : Dec)
  | str (s : String)
  | arr (elems : List JVal)
  | obj (fields : List (String × JVal))

/-- JSON whitespace. -/
def isJsonWs (c : Char) : Bool :=
  c = ' ' || c = '\t' || c = '\n' || c = '\r'

/-- Value of a hex digit. -/
def hexVal (c : Char) : Option Nat :=
  if '0' ≤ c ∧ c ≤ '9' then some (c.toNat - 48)
  else if 'a' ≤ c ∧ c ≤ 'f' then some (c.toNat - 87)
  else if 'A' ≤ c ∧ c ≤ 'F' then some (c.toNat - 55)
  else Option.none

/-- Body of a JSON string literal, after the opening quote; returns the
decoded characters and the input after the closing quote. -/
def parseStringBody : List Char → Option (List Char × List Char)
  | [] => Option.none
  | '"' :: rest => some ([], rest)
  | '\\' :: e :: rest =>
    match e with
    | '"' => (parseStringBody rest).map fun p => ('"' :: p.1, p.2)
    | '\\' => (parseStringBody rest).map fun p => ('\\' :: p.1, p.2)
    | '/' => (parseStringBody rest).map fun p => ('/' :: p.1, p.2)
    | 'b' => (parseStringBody rest).map fun p => ('\x08' :: p.1, p.2)
    | 'f' => (parseStringBody rest).map fun p => ('\x0c' :: p.1, p.2)
    | 'n' => (parseStringBody rest).map fun p => ('\n' :: p.1, p.2)
    | 'r' => (parseStringBody rest).map fun p => ('\r' :: p.1, p.2)
    | 't' => (parseStringBody rest).map fun p => ('\t' :: p.1, p.2)
    | 'u' =>
      match rest with
      | h1 :: h2 :: h3 :: h4 :: rest2 =>
        match hexVal h1, hexVal h2, hexVal h3, hexVal h4 with
        | some a, some b, some c, some d =>
          let n := ((a * 16 + b) * 16 + c) * 16 + d
          if h : n.isValidChar then
            (parseStringBody rest2).map fun p => (Char.ofNatAux n h :: p.1, p.2)
          else
            (parseStringBody rest2).map fun p => ('�' :: p.1, p.2)
        | _, _, _, _ => Option.none
      | _ => Option.none
    | _ => Option.none
  | c :: rest => (parseStringBody rest).map fun p => (c :: p.1, p.2)

/-- Decimal digits to a natural number. -/
def digitsToNat (ds : List Char) : Nat :=
  ds.foldl (fun a c => a * 10 + (c.toNat - 48)) 0

/-- A JSON number literal: sign, integer part, optional fraction, optional
exponent; returns the exact decimal and the rest of the input. -/
def parseNumber (s : List Char) : Option (Dec × List Char) :=
  let signed : Bool × List Char :=
    match s with
    | '-' :: t => (true, t)
    | _ => (false, s)
  let neg := signed.1
  let s1 := signed.2
  let ip := s1.takeWhile Char.isDigit
  let s2 := s1.dropWhile Char.isDigit
  if ip.isEmpty then Option.none
  else
    let fracPart : Option (List Char × List Char) :=
      match s2 with
      | '.' :: t =>
        let fr := t.takeWhile Char.isDigit
        if fr.isEmpty then Option.none else some (fr, t.dropWhile Char.isDigit)
      | _ => some ([], s2)
    match fracPart with
    | Option.none => Option.none
    | some (fr, s3) =>
      let expPart : Option (Int × List Char) :=
        match s3 with
        | 'e' :: t | 'E' :: t =>
          let esigned : Bool × List Char :=
            match t with
            | '-' :: u => (true, u)
            | '+' :: u => (false, u)
            | _ => (false, t)
          let ed := esigned.2.takeWhile Char.isDigit
          if ed.isEmpty then Option.none
          else
            let ev : Int := digitsToNat ed
            some (if esigned.1 then -ev else ev, esigned.2.dropWhile Char.isDigit)
        | _ => some (0, s3)
      match expPart with
      | Option.none => Option.none
      | some (ev, s4) =>
        let mantNat : Nat := digitsToNat (ip ++ fr)
        let mant : Int := if neg then -(mantNat : Int) else (mantNat : Int)
        some (⟨mant, ev - (fr.length : Int)⟩, s4)

mutual

/-- A JSON value (fuel-indexed recursive descent; the fuel is at least the
length of the remaining input at every call, so it never runs out). -/
def parseVal : Nat → List Char → Option (JVal × List Char)
  | 0, _ => Option.none
  | fuel + 1, s =>
    let s := s.dropWhile isJsonWs
    match s with
    | [] => Option.none
    | c :: cs =>
      if c = 'n' then
        if listIsPrefix ['u', 'l', 'l'] cs then some (.null, cs.drop 3) else Option.none
      else if c = 't' then
        if listIsPrefix ['r', 'u', 'e'] cs then some (.bool true, cs.drop 3) else Option.none
      else if c = 'f' then
        if listIsPrefix ['a', 'l', 's', 'e'] cs then some (.bool false, cs.drop 4) else Option.none
      else if c = '"' then
        (parseStringBody cs).map fun p => (.str (String.mk p.1), p.2)
      else if c = '\x7b' then
        (parseFieldsRest fuel cs).map fun p => (.obj p.1, p.2)
      else if c = '[' then
        (parseElemsRest fuel cs).map fun p => (.arr p.1, p.2)
      else
        (parseNumber (c :: cs)).map fun p => (.num p.1, p.2)

/-- Object fields after the opening brace. -/
def parseFieldsRest : Nat → List Char → Option (List (String × JVal) × List Char)
  | 0, _ => Option.none
  | fuel + 1, s =>
    let s := s.dropWhile isJsonWs
    match s with
    | '\x7d' :: rest => some ([], rest)
    | '"' :: cs =>
      match parseStringBody cs with
      | Option.none => Option.none
      | some (key, afterKey) =>
        match afterKey.dropWhile isJsonWs with
        | ':' :: afterColon =>
          match parseVal fuel afterColon with
          | Option.none => Option.none
          | some (v, afterVal) =>
            match afterVal.dropWhile isJsonWs with
            | ',' :: afterComma =>
              (parseFieldsRest fuel afterComma).map fun p =>
                (((String.mk key, v) :: p.1), p.2)
            | '\x7d' :: rest => some ([(String.mk key, v)], rest)
            | _ => Option.none
        | _ => Option.none
    | _ => Option.none

/-- Array elements after the opening bracket. -/
def parseElemsRest : Nat → List Char → Option (List JVal × List Char)
  | 0, _ => Option.none
  | fuel + 1, s =>
    let s := s.dropWhile isJsonWs
    match s with
    | ']' :: rest => some ([], rest)
    | _ =>
      match parseVal fuel s with
      | Option.none => Option.none
      | some (v, afterVal) =>
        match afterVal.dropWhile isJsonWs with
        | ',' :: afterComma =>
          (parseElemsRest fuel afterComma).map fun p => ((v :: p.1), p.2)
        | ']' :: rest => some ([v], rest)
        | _ => Option.none

end

/-- Python `json.loads`: parse one document and require only whitespace to
follow; any failure is an exception, modelled as `none`. -/
def jsonLoads (s : String) : Option JVal :=
  match parseVal (s.data.length + 1) s.data with
  | some (v, rest) => if (rest.dropWhile isJsonWs).isEmpty then some v else Option.none
  | Option.none => Option.none

/-- Python `dict.get(k)` on a decoded object's fields (last occurrence of a
duplicate key wins, as in a dict built by insertion). -/
def dictGet (fields : List (String × JVal)) (k : String) : Option JVal :=
  (fields.reverse.find? fun p => p.1 == k).map Prod.snd

/-- Python truthiness of a decoded JSON value. -/
def jvalTruthy : JVal → Bool
  | .null => false
  | .bool b => b
  | .num v => v.mant ≠ 0
  | .str s => s ≠ ""
  | .arr l => !l.isEmpty
  | .obj f => !f.isEmpty

example : (jsonLoads "\x7b\"a\": 1\x7d").isSome = true := by decide
example : (jsonLoads "\x7b").isSome = false := by decide
example : (jsonLoads "\x7b\"a\": 1").isSome = false := by decide
example : (jsonLoads "not json").isSome = false := by decide
example : (jsonLoads "\x7b\"a\": 1\x7d trailing").isSome = false := by decide
example : (jsonLoads " [1, -2.5e1, \"x\\n\", true, null] ").isSome = true := by decide

/-! ## `clean_json` (rag_backend1, lines 19-33) -/

/-- Python `re.sub(r",\s*X", "X", t)` for a single closing character `X`:
every comma followed by (possibly empty) whitespace and `X` collapses to
`X`; scanning resumes after the replacement. -/
def subCommaCloseAux (close : Char) : Nat → List Char → List Char
  | 0, s => s
  | _ + 1, [] => []
  | fuel + 1, c :: cs =>
    if c = ',' then
      match cs.dropWhile Char.isWhitespace with
      | d :: ds =>
        if d = close then close :: subCommaCloseAux close fuel ds
        else c :: subCommaCloseAux close fuel cs
      | [] => c :: subCommaCloseAux close fuel cs
    else c :: subCommaCloseAux close fuel cs

/-- String-level wrapper for the comma-before-close regex substitution. -/
def subCommaClose (close : Char) (s : String) : String :=
  String.mk (subCommaCloseAux close s.data.length s.data)

/-- Python `t.find("{")` followed by `t = t[first_brace:]` when the index is
positive ("remove leading garbage before a JSON object"). -/
def dropBeforeBrace (s : String) : String :=
  match s.data.findIdx? (· = '\x7b') with
  | some i => if 0 < i then String.mk (s.data.drop i) else s
  | Option.none => s

/-- `clean_json(text)`: strip, newlines to spaces, drop trailing commas
before `}` / `]`, remove markdown fences, drop leading garbage before the
first brace. -/
def clean_json (text : String) : String :=
  let t := pyReplace (pyStrip text) "\n" " "
  let t := subCommaClose '\x7d' t
  let t := subCommaClose ']' t
  let t := pyReplace (pyReplace t "```json" "") "```" ""
  dropBeforeBrace t

example : clean_json "```json\n\x7b\"a\": 1,\x7d\n```" = "\x7b\"a\": 1\x7d " := by decide
example : clean_json "Sure! \x7b\"a\": 1\x7d" = "\x7b\"a\": 1\x7d" := by decide
example : clean_json "```json \x7b" = "\x7b" := by decide

/-! ## `_safe_json_parse` and the disambiguation step (`rag_backend.recommend`) -/

/-- Python `re.search(r"\x7b.*\x7d", s, re.DOTALL)`: the leftmost-longest
match runs from the first opening brace to the last closing brace, provided
the latter lies strictly after the former. -/
def extractBraced (s : List Char) : Option (List Char) :=
  match s.findIdx? (· = '\x7b') with
  | Option.none => Option.none
  | some i =>
    match s.reverse.findIdx? (· = '\x7d') with
    | Option.none => Option.none
    | some rj =>
      let j := s.length - 1 - rj
      if i < j then some ((s.drop i).take (j - i + 1)) else Option.none

/-- `_safe_json_parse(llm_response)`: extract the braced region, decode it,
and on any failure return the empty dict. -/
def safe_json_parse (resp : String) : List (String × JVal) :=
  match extractBraced resp.data with
  | Option.none => []
  | some sub =>
    match jsonLoads (String.mk sub) with
    | some (JVal.obj fields) => fields
    | _ => []

/-- Outcome of the disambiguation step of `rag_backend.recommend`
(lines 175-181): either the early `return llm_response` taken when the
response contains `"ERROR"`, or the pair of queries the pipeline proceeds
with. -/
inductive Disambig where
  | earlyReturn (s : String)
  | proceed (apartment_query user_profile : JVal)

/-- Step 0 of `rag_backend.recommend`: pass the response through when it
contains `"ERROR"`; otherwise parse it tolerantly and fall back to the raw
query for each missing key. -/
def disambiguate (query llm_response : String) : Disambig :=
  if pyIn "ERROR" llm_response then .earlyReturn llm_response
  else
    let queries := safe_json_parse llm_response
    .proceed ((dictGet queries "apartment_query").getD (.str query))
      ((dictGet queries "user_profile").getD (.str query))

/-! ## Apartment scoring, ranking and rendering
(`rag_backend1.recommend_apartments`, lines 513-552) -/

/-- Result of a modelled Python function body: a normal `return s`, or an
unhandled exception propagating to the caller. -/
inductive PyRes where
  | ret (s : String)
  | raised (e : String)
deriving DecidableEq

/-- Python `str(v)` for the primitive values reaching it here.  Containers
are rendered with a placeholder: no theorem below evaluates those cases, and
float rendering is exercised only through `format2`. -/
def pyStrOfJVal : JVal → String
  | .str s => s
  | .num v => if 0 ≤ v.exp then toString (v.mant * 10 ^ v.exp.toNat) else v.format2
  | .bool b => if b then "True" else "False"
  | .null => "None"
  | .arr _ => "[...]"
  | .obj _ => "\x7b...\x7d"

/-- Python `str(v)` for a metadata value. -/
def pyStrOfPyVal : PyVal → String
  | .none => "None"
  | .bool b => if b then "True" else "False"
  | .int n => toString n
  | .float q => toString q.num
  | .str s => s

/-- The apartment metadata mapping, restricted to the keys
`recommend_apartments` reads when rendering the top candidates. -/
structure AptMeta where
  propertyCode : Option PyVal
  url : Option String
  price : Option PyVal
  district : Option String
  neighborhood : Option String
deriving DecidableEq

/-- `meta_by_code`: the dict comprehension over `apt_metas` keyed by
`str(m["propertyCode"])`, skipping rows without a property code. -/
def metaByCode (metas : List AptMeta) : List (String × AptMeta) :=
  metas.filterMap fun m => m.propertyCode.map fun pc => (pyStrOfPyVal pc, m)

/-- Python `meta_by_code.get(code, {})` (last duplicate key wins). -/
def lookupMeta (d : List (String × AptMeta)) (k : String) : Option AptMeta :=
  (d.reverse.find? fun p => p.1 == k).map Prod.snd

/-- The sort key `lambda x: x.get("total_score", 0)`.  A present
non-numeric score is mapped to 0 here; CPython would instead raise
`TypeError` when the sort compares it against a number — no theorem below
sorts such a list, and every other case matches CPython (`True` counts as
1).  A non-dict item is also mapped to 0; CPython raises `AttributeError`
computing its key, which `rankTop` below checks before sorting. -/
def scoreKey (item : JVal) : Dec :=
  match item with
  | .obj f =>
    match dictGet f "total_score" with
    | some (.num v) => v
    | some (.bool b) => ⟨if b then 1 else 0, 0⟩
    | some _ => ⟨0, 0⟩
    | Option.none => ⟨0, 0⟩
  | _ => ⟨0, 0⟩

/-- The descending-score ordering used for ranking: `a` may precede `b` when
`a`'s score is at least `b`'s. -/
def scoreGE (a b : JVal) : Prop :=
  Dec.ble (scoreKey b) (scoreKey a) = true

instance : DecidableRel scoreGE := fun _ _ => instDecidableEqBool _ _

/-- `scored_list.sort(key=lambda x: x.get("total_score", 0), reverse=True)`:
CPython's sort is stable, so with `reverse=True` it produces the unique
permutation that is descending in the key and keeps tied elements in their
original order; `insertionSort` with `scoreGE` produces exactly that
permutation. -/
def sortByScoreDesc (items : List JVal) : List JVal :=
  items.insertionSort scoreGE

/-- Rank and truncate: sort descending by total score, take the first
`top_k`. -/
def rankTop (items : List JVal) (top_k : Nat) : List JVal :=
  (sortByScoreDesc items).take top_k

/-- One line of the final rendering loop.  Reproduces the evaluation order of
the source: `str(item["property_code"])` first (a missing key raises
`KeyError`), then the metadata defaults, then the `f`-string, whose
`{item['total_score']:.2f}` raises on a missing key or a non-numeric score
before `{item['reasoning']}` is looked up. -/
def renderApartmentLine (fields : List (String × JVal)) (metaMap : List (String × AptMeta)) :
    Except String String :=
  match dictGet fields "property_code" with
  | Option.none => .error "KeyError: property_code"
  | some pc =>
    let code := pyStrOfJVal pc
    let meta? := lookupMeta metaMap code
    let url := (meta?.bind AptMeta.url).getD "None"
    let price :=
      match meta?.bind AptMeta.price with
      | some p => pyStrOfPyVal p
      | Option.none => "N/A"
    let district := (meta?.bind AptMeta.district).getD ""
    let neighborhood := (meta?.bind AptMeta.neighborhood).getD ""
    match dictGet fields "total_score" with
    | Option.none => .error "KeyError: total_score"
    | some sv =>
      match sv with
      | .num v =>
        match dictGet fields "reasoning" with
        | Option.none => .error "KeyError: reasoning"
        | some r =>
          .ok ("- PROPERTY_CODE: " ++ code ++ " | District: " ++ district ++
            " | Neighborhood: " ++ neighborhood ++ " | Price: €" ++ price ++
            " | URL: " ++ url ++ "\n  Score: " ++ v.format2 ++
            " | Reason: " ++ pyStrOfJVal r)
      | .bool b =>
        match dictGet fields "reasoning" with
        | Option.none => .error "KeyError: reasoning"
        | some r =>
          .ok ("- PROPERTY_CODE: " ++ code ++ " | District: " ++ district ++
            " | Neighborhood: " ++ neighborhood ++ " | Price: €" ++ price ++
            " | URL: " ++ url ++ "\n  Score: " ++
            Dec.format2 ⟨if b then 1 else 0, 0⟩ ++
            " | Reason: " ++ pyStrOfJVal r)
      | _ => .error "TypeError: unsupported format string for total_score"

/-- The rendering loop over the truncated ranking. -/
def renderTopLines (metaMap : List (String × AptMeta)) : List JVal → Except String (List String)
  | [] => .ok []
  | .obj f :: rest =>
    match renderApartmentLine f metaMap with
    | .error e => .error e
    | .ok line => (renderTopLines metaMap rest).map fun ls => line :: ls
  | _ :: _ => .error "TypeError: item is not a dict"

/-- Lines 513-552 of `recommend_apartments`, from the scoring LLM response to
the returned string: the `ERROR` passthrough, the guarded
`clean_json` + `json.loads`, the `scores.get("apartments") or []` extraction,
the empty check, the descending stable sort, the `top_k` truncation and the
rendering loop. -/
def scoringPhase (score_raw : String) (apt_metas : List AptMeta) (top_k : Nat) : PyRes :=
  if pyStartsWith score_raw "ERROR" then .ret score_raw
  else
    let cleaned := clean_json score_raw
    match jsonLoads cleaned with
    | Option.none =>
      .ret ("ERROR: Failed to parse apartment scores JSON\nRaw: " ++ cleaned)
    | some (JVal.obj fields) =>
      match dictGet fields "apartments" with
      | some (JVal.arr items) =>
        if items.isEmpty then .ret "No apartment scores returned by LLM."
        else if items.any fun i =>
            match i with
            | JVal.obj _ => false
            | _ => true then
          .raised "AttributeError: item has no attribute get"
        else
          match renderTopLines (metaByCode apt_metas) (rankTop items top_k) with
          | .error e => .raised e
          | .ok lines => .ret ("Top apartment matches:\n" ++ joinSep "\n\n" lines)
      | some v =>
        if jvalTruthy v then .raised "AttributeError: scored_list has no attribute sort"
        else .ret "No apartment scores returned by LLM."
      | Option.none => .ret "No apartment scores returned by LLM."
    | some _ => .raised "AttributeError: scores has no attribute get"

/-! ## The full `recommend_apartments` orchestrator (rag_backend1, lines 342-552)

The LLM and vector-store responses are oracle arguments; the second component
of the result lists the external calls performed, in order.  The Python
exception messages interpolated into the two parse-error strings
(`f"...: \x7be\x7d\nRaw: ..."`) are elided: a `json.JSONDecodeError` message
describes a position and never contains the offending document. -/

/-- An external (network or model) call performed by the orchestrator. -/
inductive ExtCall where
  | geminiParse (user_query : String)
  | chromaQuery (query_text : String)
  | summarize
  | geminiScore
deriving DecidableEq

/-- Python `parsed.get("apartment_query") or user_query`. -/
def aptQueryOf (parsed : List (String × JVal)) (user_query : String) : String :=
  match dictGet parsed "apartment_query" with
  | some v => if jvalTruthy v then pyStrOfJVal v else user_query
  | Option.none => user_query

/-- `recommend_apartments(user_query, top_k)` as a function of the query and
the external responses.  The parse prompt is sent to Gemini before anything
about `user_query` is inspected; all later steps are as in the source. -/
def recommend_apartments_model (user_query parse_resp : String)
    (retrieval : Except String (List (List String) × List (List AptMeta)))
    (score_resp : String) (top_k : Nat) : PyRes × List ExtCall :=
  let calls0 : List ExtCall := [.geminiParse user_query]
  if pyStartsWith parse_resp "ERROR" then (.ret parse_resp, calls0)
  else
    match jsonLoads (clean_json parse_resp) with
    | Option.none =>
      (.ret ("ERROR: Failed to parse apartment parse JSON\nRaw: " ++ parse_resp), calls0)
    | some (JVal.obj parsed) =>
      let calls1 := calls0 ++ [ExtCall.chromaQuery (aptQueryOf parsed user_query)]
      match retrieval with
      | .error e => (.ret ("ERROR: Chroma query failed: " ++ e), calls1)
      | .ok (documents, metadatas) =>
        if documents.isEmpty then (.ret "No apartments found in database.", calls1)
        else
          let docs := documents.headD []
          let metas := metadatas.headD []
          let calls := calls1 ++ docs.map (fun _ => ExtCall.summarize) ++ [ExtCall.geminiScore]
          (scoringPhase score_resp metas top_k, calls)
    | some _ => (.raised "AttributeError: parsed has no attribute get", calls0)

/-! ## The roommate orchestrator (`rag_backend1.recommend_roommates`, lines 559-673) -/

/-- Python `float(s)` restricted to finite decimal literals (optional sign,
digits with an optional point on either side, optional exponent); `inf` and
`nan` spellings are not modelled — the scoring prompt asks for 0-10. -/
def pyFloat? (s : String) : Option Dec :=
  let l := stripList s.data
  let signed : Bool × List Char :=
    match l with
    | '-' :: t => (true, t)
    | '+' :: t => (false, t)
    | _ => (false, l)
  let s1 := signed.2
  let ip := s1.takeWhile Char.isDigit
  let s2 := s1.dropWhile Char.isDigit
  let fracPart : List Char × List Char :=
    match s2 with
    | '.' :: t => (t.takeWhile Char.isDigit, t.dropWhile Char.isDigit)
    | _ => ([], s2)
  let fr := fracPart.1
  let s3 := fracPart.2
  if ip.isEmpty ∧ fr.isEmpty then Option.none
  else
    let expPart : Option (Int × List Char) :=
      match s3 with
      | 'e' :: t | 'E' :: t =>
        let esigned : Bool × List Char :=
          match t with
          | '-' :: u => (true, u)
          | '+' :: u => (false, u)
          | _ => (false, t)
        let ed := esigned.2.takeWhile Char.isDigit
        if ed.isEmpty then Option.none
        else
          let ev : Int := digitsToNat ed
          some (if esigned.1 then -ev else ev, esigned.2.dropWhile Char.isDigit)
      | _ => some (0, s3)
    match expPart with
    | Option.none => Option.none
    | some (ev, s4) =>
      if s4.isEmpty then
        let mantNat : Nat := digitsToNat (ip ++ fr)
        let mant : Int := if signed.1 then -(mantNat : Int) else (mantNat : Int)
        some ⟨mant, ev - (fr.length : Int)⟩
      else Option.none

example : pyFloat? "9" = some ⟨9, 0⟩ := by decide
example : pyFloat? "5.5" = some ⟨55, -1⟩ := by decide
example : pyFloat? "10:30" = Option.none := by decide
example : pyFloat? "" = Option.none := by decide

/-- A parsed `NAME | SCORE | REASON` line. -/
structure ScoredStudent where
  name : String
  score : Dec
  reasoning : String
deriving DecidableEq

/-- `parse_student_scores(text)`: keep the stripped lines containing a pipe
that split (at most twice) into three parts whose middle part is a float. -/
def parse_student_scores (text : String) : List ScoredStudent :=
  (pySplitLines text).filterMap fun line0 =>
    let line := pyStrip line0
    if line = "" || !pyIn "|" line then Option.none
    else
      match (pySplitLimit line '|' 2).map pyStrip with
      | [name, scoreStr, reason] =>
        (pyFloat? scoreStr).map fun sc => ⟨name, sc, reason⟩
      | _ => Option.none

/-- Descending-score ordering for roommate candidates
(`key=lambda x: x.get("score", 0)`; the key is always present here). -/
def studentGE (a b : ScoredStudent) : Prop :=
  Dec.ble b.score a.score = true

instance : DecidableRel studentGE := fun _ _ => instDecidableEqBool _ _

/-- `recommend_roommates(user_profile_query, top_k)` as a function of the
external responses: the retrieval outcome (or Chroma exception text) and the
scoring response.  The Boolean records whether the scoring LLM call
(`run_gemini(rm_prompt)`) was performed. -/
def recommend_roommates_model
    (retrieval : Except String (List (List String) × List (List StudentMeta)))
    (llm_response : String) (top_k : Nat) : String × Bool :=
  match retrieval with
  | .error e => ("ERROR: Chroma query failed: " ++ e, false)
  | .ok (documents, metadatas) =>
    if documents.isEmpty then ("No roommate candidates found in database.", false)
    else
      let docs := documents.headD []
      let metas := metadatas.headD []
      let students := filter_students docs metas
      if students.isEmpty then
        ("No compatible roommate candidates after basic filtering.", false)
      else if pyStartsWith llm_response "ERROR" then (llm_response, true)
      else
        let scored := parse_student_scores llm_response
        if scored.isEmpty then
          ("No roommate scores returned.\nRaw output:\n" ++ llm_response, true)
        else
          let top := (scored.insertionSort studentGE).take top_k
          ("Top roommate matches:\n" ++
            joinSep "\n\n" (top.map fun s =>
              "- Name: " ++ s.name ++ " | Score: " ++ s.score.format2 ++
              "\n  Reason: " ++ s.reasoning), true)

/-! ## The description summarizer
(`apartment_description_summarizer.summarize_description`, lines 40-44) -/

/-- The cleaning applied to the LLM content: strip, remove every backtick
fence, remove every occurrence of the substring `json`, strip again. -/
def cleanSummaryContent (content : String) : String :=
  pyStrip (pyReplace (pyReplace (pyStrip content) "```" "") "json" "")

/-- `summarize_description` as a function of the LLM response content: the
cleaned content with its first 25 characters sliced off. -/
def summarize_description (content : String) : String :=
  pySliceFrom (cleanSummaryContent content) 25

/-! ## Embedding call sites (`embeddings.py`, `llm_pipeline.py`,
`rag_backend.py`, `rag_backend1.py`, `embed_index.py`, `embed_index_V2.py`,
`extract_students_metadata.py`, `app.py`)

`SentenceTransformer.encode` returns the model's raw sentence vector unless
`normalize_embeddings=True` is passed (the default is `False`), in which case
it returns the L2-normalized vector.  The abstract model below carries both
families of outputs; nothing constrains the raw outputs to be unit-norm. -/

/-- An abstract sentence-transformer: its raw outputs and its L2-normalized
outputs per input text. -/
structure STModel where
  raw : String → List ℚ
  normalized : String → List ℚ

/-- `model.encode([text], normalize_embeddings=flag)` for one text. -/
def stEncode (m : STModel) (text : String) (normalize_embeddings : Bool) : List ℚ :=
  if normalize_embeddings then m.normalized text else m.raw text

/-- Squared L2 norm. -/
def sumSq (v : List ℚ) : ℚ :=
  (v.map fun x => x * x).sum

/-- The embedding `embeddings.build_chroma_db` stores for one description
(line 16: `model.encode(df["description"].tolist())`, no normalization
flag). -/
def build_chroma_db_embedding (m : STModel) (description : String) : List ℚ :=
  stEncode m description false

/-- The query embedding of `llm_pipeline.get_recommendations` (line 10:
`embedder.encode([query])`, no normalization flag). -/
def llm_pipeline_query_embedding (m : STModel) (query : String) : List ℚ :=
  stEncode m query false

/-- `embed_query` of `rag_backend.py` (line 24) and `rag_backend1.py`
(line 112): `encode([text], normalize_embeddings=True)`. -/
def rag_backend_embed_query (m : STModel) (text : String) : List ℚ :=
  stEncode m text true

/-- One `SentenceTransformer.encode` call site of the repository, with the
`normalize_embeddings` argument it passes (`false` when the argument is
omitted, matching the library default). -/
structure EncodeCallSite where
  file : String
  symbol : String
  normalize_embeddings : Bool
deriving DecidableEq

/-- Every `encode` call site that produces an embedding stored into or
queried against a vector collection, transcribed from the source. -/
def encodeCallSites : List EncodeCallSite :=
  [ ⟨"embeddings.py", "build_chroma_db", false⟩,
    ⟨"llm_pipeline.py", "get_recommendations", false⟩,
    ⟨"rag_backend.py", "embed_query", true⟩,
    ⟨"rag_backend1.py", "embed_query", true⟩,
    ⟨"embed_index.py", "Embedder.encode", true⟩,
    ⟨"embed_index_V2.py", "Embedder.encode", true⟩,
    ⟨"extract_students_metadata.py", "embed_texts", true⟩,
    ⟨"app.py", "embed_text", true⟩ ]

/-! ## Claims -/

/-- C1 counterexample.  The claim reads the code as computing
`budget_per_person * (roommates + 1)` whenever both values are present; at
`budget_per_person = 1000`, `roommates = 0` that formula gives `1000`, but
the source additionally requires `roommates > 0`, so `effective_budget`
stays `None`. -/
theorem C1_budget_counterexample :
    effective_budget (.int 1000) (.int 0) = Option.none ∧
      (1000 : ℚ) * ((0 : ℚ) + 1) = 1000 := by
  constructor
  · decide
  · norm_num

/-- C1 (amended): with a numeric `budget_per_person` and an `int`-typed
`roommates`, the effective budget is `budget_per_person * (roommates + 1)`
when `roommates > 0` and `None` otherwise; an absent value on either side
gives `None` (never 0); `budget_per_person = 1000` with `roommates = 2`
gives `3000`, and `roommates = None` gives `None`. -/
theorem C1_effective_budget_amended :
    (∀ b r : PyVal, isinstanceIntOrFloat b = true → isinstanceInt r = true →
      ((0 < intVal r →
          effective_budget b r = some (numVal b * ((intVal r : ℚ) + 1))) ∧
        (intVal r ≤ 0 → effective_budget b r = Option.none))) ∧
      (∀ b, effective_budget b .none = Option.none) ∧
      (∀ r, effective_budget .none r = Option.none) ∧
      effective_budget (.int 1000) (.int 2) = some 3000 ∧
      effective_budget (.int 1000) .none = Option.none := by
  refine ⟨fun b r hb hr => ⟨fun hpos => ?_, fun hnonpos => ?_⟩, fun b => ?_, fun r => ?_, ?_, ?_⟩
  · have hne : intVal r + 1 ≠ 0 := by omega
    simp [effective_budget, total_people, hb, hr, hpos, hne]
    try push_cast
    try ring
  · have hnot : ¬ (0 < intVal r) := by omega
    simp [effective_budget, total_people, hnot]
  · simp [effective_budget, total_people, isinstanceInt]
  · unfold effective_budget
    cases htp : total_people r with
    | none => rfl
    | some t => simp [isinstanceIntOrFloat]
  · simp [effective_budget, total_people, isinstanceInt, isinstanceIntOrFloat, intVal, numVal]
    norm_num
  · decide

/-- C1 witness: the amended theorem applied at `budget_per_person = 1000`,
`roommates = 3`. -/
theorem C1_effective_budget_amended_witness :
    effective_budget (.int 1000) (.int 3) =
      some (numVal (.int 1000) * ((intVal (.int 3) : ℚ) + 1)) :=
  (C1_effective_budget_amended.1 (.int 1000) (.int 3) (by decide) (by decide)).1 (by decide)

/-- C5: every candidate whose pet-compatibility field contains `allergic` is
excluded by `filter_students` — the filter never consults the user profile,
so the exclusion holds whichever profile (pet-tolerant or not) accompanies
the query. -/
theorem C5_allergic_excluded :
    ∀ (profile_requests_pet_tolerance : Bool) (docs : List String)
      (metas : List StudentMeta),
      (filter_students docs metas).all
        (fun s => !(pyIn "allergic" (pyLower (getOrEmpty s.meta.dog_friendliness)))) = true := by
  intro _ docs metas
  rw [List.all_eq_true]
  intro s hs
  simp only [filter_students, List.mem_map, List.mem_filter] at hs
  obtain ⟨p, ⟨-, hex⟩, rfl⟩ := hs
  have hex2 : excluded p.2 = false := by simpa using hex
  simp only [excluded, Bool.or_eq_false_iff] at hex2
  have h1 : pyIn "allergic" (pyLower (getOrEmpty p.2.dog_friendliness)) = false :=
    hex2.1.1.1.1
  simp [mkStudent, h1]

/-- C6: the deterministic roommate filter is idempotent — re-applying
`filter_students` to the documents and metadata of its own output returns
that output unchanged. -/
theorem C6_filter_idempotent :
    ∀ (docs : List String) (metas : List StudentMeta),
      filter_students ((filter_students docs metas).map Student.raw)
          ((filter_students docs metas).map Student.meta) =
        filter_students docs metas := by
  intro docs metas
  show filter_students
      ((((docs.zip metas).filter fun p => !excluded p.2).map fun p => mkStudent p.1 p.2).map
        Student.raw)
      ((((docs.zip metas).filter fun p => !excluded p.2).map fun p => mkStudent p.1 p.2).map
        Student.meta) = _
  set l := (docs.zip metas).filter fun p => !excluded p.2 with hl
  rw [List.map_map, List.map_map]
  have hraw : (Student.raw ∘ fun p : String × StudentMeta => mkStudent p.1 p.2) = Prod.fst := rfl
  have hmeta : (Student.meta ∘ fun p : String × StudentMeta => mkStudent p.1 p.2) = Prod.snd :=
    rfl
  rw [hraw, hmeta]
  show ((((l.map Prod.fst).zip (l.map Prod.snd)).filter fun p => !excluded p.2).map
      fun p => mkStudent p.1 p.2) = _
  rw [List.zip_map']
  have : (l.map fun p => (p.1, p.2)) = l := by simp
  rw [this]
  have hfl : (l.filter fun p => !excluded p.2) = l := by
    apply List.filter_eq_self.mpr
    intro a ha
    have ha2 : a ∈ (docs.zip metas).filter fun p => !excluded p.2 := hl ▸ ha
    exact (List.mem_filter.mp ha2).2
  rw [hfl, hl]
  rfl

/-- C10: `summarize_description` returns the cleaned LLM content (stripped,
backtick fences and every `json` substring removed) with its first 25
characters unconditionally discarded; whenever the cleaned content has at
most 25 characters the result is the empty string. -/
theorem C10_summarizer_drops_25 :
    ∀ content : String,
      summarize_description content = pySliceFrom (cleanSummaryContent content) 25 ∧
        (pyLen (cleanSummaryContent content) ≤ 25 → summarize_description content = "") := by
  intro content
  refine ⟨rfl, fun hle => ?_⟩
  show pySliceFrom (cleanSummaryContent content) 25 = ""
  unfold pySliceFrom
  have h : (cleanSummaryContent content).data.drop 25 = [] :=
    List.drop_eq_nil_of_le hle
  rw [h]

/-- C10 witness: a cleaned content of 5 characters yields the empty
summary. -/
theorem C10_summarizer_drops_25_witness :
    pyLen (cleanSummaryContent "```json Hello```") ≤ 25 ∧
      summarize_description "```json Hello```" = "" :=
  ⟨by decide, (C10_summarizer_drops_25 "```json Hello```").2 (by decide)⟩

/-! ## Ordering lemmas for the decimal comparison -/

/-- The Boolean decimal comparison agrees with the rational order. -/
theorem Dec.ble_iff (a b : Dec) : a.ble b = true ↔ a.toRat ≤ b.toRat := by
  have hten : (10 : ℚ) ≠ 0 := by norm_num
  unfold Dec.ble Dec.toRat
  simp only [decide_eq_true_eq]
  set k := min a.exp b.exp with hk
  have hak : 0 ≤ a.exp - k := by omega
  have hbk : 0 ≤ b.exp - k := by omega
  have hpowa : ((10 : ℚ) ^ (a.exp - k).toNat : ℚ) = (10 : ℚ) ^ (a.exp - k) := by
    rw [← zpow_natCast (10 : ℚ) (a.exp - k).toNat, Int.toNat_of_nonneg hak]
  have hpowb : ((10 : ℚ) ^ (b.exp - k).toNat : ℚ) = (10 : ℚ) ^ (b.exp - k) := by
    rw [← zpow_natCast (10 : ℚ) (b.exp - k).toNat, Int.toNat_of_nonneg hbk]
  constructor
  · intro h
    have hq : ((a.mant : ℚ)) * (10 : ℚ) ^ (a.exp - k).toNat ≤
        (b.mant : ℚ) * (10 : ℚ) ^ (b.exp - k).toNat := by
      exact_mod_cast h
    rw [hpowa, hpowb] at hq
    have hm := mul_le_mul_of_nonneg_right hq
      (le_of_lt (zpow_pos (by norm_num : (0 : ℚ) < 10) k))
    rw [mul_assoc, mul_assoc, ← zpow_add₀ hten, ← zpow_add₀ hten,
      sub_add_cancel, sub_add_cancel] at hm
    exact hm
  · intro h
    have hm := mul_le_mul_of_nonneg_right h
      (le_of_lt (zpow_pos (by norm_num : (0 : ℚ) < 10) (-k)))
    rw [mul_assoc, mul_assoc, ← zpow_add₀ hten, ← zpow_add₀ hten] at hm
    have ha2 : a.exp + -k = a.exp - k := by ring
    have hb2 : b.exp + -k = b.exp - k := by ring
    rw [ha2, hb2, ← hpowa, ← hpowb] at hm
    exact_mod_cast hm

/-- Totality of the decimal comparison. -/
theorem Dec.ble_total (a b : Dec) : a.ble b = true ∨ b.ble a = true := by
  rcases le_total a.toRat b.toRat with h | h
  · exact Or.inl ((Dec.ble_iff a b).mpr h)
  · exact Or.inr ((Dec.ble_iff b a).mpr h)

/-- Transitivity of the decimal comparison. -/
theorem Dec.ble_trans {a b c : Dec} (hab : a.ble b = true) (hbc : b.ble c = true) :
    a.ble c = true :=
  (Dec.ble_iff a c).mpr (le_trans ((Dec.ble_iff a b).mp hab) ((Dec.ble_iff b c).mp hbc))

instance : IsTotal JVal scoreGE where
  total a b := by
    rcases Dec.ble_total (scoreKey b) (scoreKey a) with h | h
    · exact Or.inl h
    · exact Or.inr h

instance : IsTrans JVal scoreGE where
  trans a b c hab hbc := Dec.ble_trans hbc hab

/-! ## C3: ranking -/

/-- A scored apartment item as returned by the scoring step. -/
def exItem (code : String) (score : Int) : JVal :=
  .obj [("property_code", .str code), ("total_score", .num ⟨score, 0⟩),
    ("reasoning", .str "r")]

/-- The five synthetic candidates A, B, C, D, E with scores 9, 7, 5, 3, 1. -/
def exItems : List JVal :=
  [exItem "A" 9, exItem "B" 7, exItem "C" 5, exItem "D" 3, exItem "E" 1]

/-- The property code of a scored item (for stating outputs). -/
def codeOf (item : JVal) : Option JVal :=
  match item with
  | .obj f => dictGet f "property_code"
  | _ => Option.none

/-- C3: the ranking step returns the first `top_k` entries of the unique
permutation of the scored list that is descending in `total_score` and keeps
tied entries in their LLM-returned order (no secondary key); on the five
synthetic candidates A-E scored 9, 7, 5, 3, 1 with `top_k = 3` it returns
exactly A, B, C in that order. -/
theorem C3_rank_and_truncate :
    (∀ (items : List JVal) (k : Nat),
        (rankTop items k).length = min k items.length ∧
          List.Perm (sortByScoreDesc items) items ∧
          (sortByScoreDesc items).Pairwise
            (fun x y => (scoreKey y).toRat ≤ (scoreKey x).toRat) ∧
          rankTop items k = (sortByScoreDesc items).take k ∧
          (∀ a b : JVal, List.Sublist [a, b] items → (scoreKey a).toRat = (scoreKey b).toRat →
            List.Sublist [a, b] (sortByScoreDesc items))) ∧
      (rankTop exItems 3).map codeOf =
        [some (.str "A"), some (.str "B"), some (.str "C")] := by
  constructor
  · intro items k
    refine ⟨?_, ?_, ?_, rfl, ?_⟩
    · unfold rankTop
      rw [List.length_take]
      unfold sortByScoreDesc
      rw [List.length_insertionSort]
    · exact List.perm_insertionSort scoreGE items
    · have hs := List.sorted_insertionSort scoreGE items
      exact hs.imp fun h => (Dec.ble_iff _ _).mp h
    · intro a b hsub heq
      exact List.pair_sublist_insertionSort ((Dec.ble_iff _ _).mpr (le_of_eq heq.symm)) hsub
  · rfl

/-- C3 witness: the general part applied to a two-element tie (both scored
5): the tied pair keeps its LLM-returned order in the sorted output. -/
theorem C3_rank_and_truncate_witness :
    List.Sublist [exItem "X" 5, exItem "Y" 5]
      (sortByScoreDesc [exItem "X" 5, exItem "Y" 5]) :=
  (C3_rank_and_truncate.1 [exItem "X" 5, exItem "Y" 5] 2).2.2.2.2
    (exItem "X" 5) (exItem "Y" 5) (List.Sublist.refl _) rfl

/-! ## Substring facts -/

/-- A list is a prefix of itself extended on the right. -/
theorem listIsPrefix_append (l m : List Char) : listIsPrefix l (l ++ m) = true := by
  induction l with
  | nil => rfl
  | cons c cs ih => simp [listIsPrefix, ih]

/-- A suffix occurs as a substring. -/
theorem listContains_suffix (pre n : List Char) : listContains n (pre ++ n) = true := by
  induction pre with
  | nil =>
    rw [List.nil_append]
    cases n with
    | nil => rfl
    | cons c cs =>
      have h := listIsPrefix_append (c :: cs) []
      rw [List.append_nil] at h
      show (listIsPrefix (c :: cs) (c :: cs) || listContains (c :: cs) cs) = true
      rw [h, Bool.true_or]
  | cons c cs ih =>
    rw [List.cons_append]
    show (listIsPrefix n (c :: (cs ++ n)) || listContains n (cs ++ n)) = true
    rw [ih, Bool.or_true]

/-- Python `needle in pre + needle` holds. -/
theorem pyIn_append_self (pre n : String) : pyIn n (pre ++ n) = true := by
  show listContains n.data (pre ++ n).data = true
  have h : (pre ++ n).data = pre.data ++ n.data := String.data_append pre n
  rw [h]
  exact listContains_suffix pre.data n.data

/-! ## C4: malformed scoring output -/

/-- C4 counterexample.  First input: the scoring response is the truncated
fenced document whose cleaned form is a lone opening brace; the returned
error string embeds the cleaned text, so the raw offending output
(which still carries its fence) does not occur in it.  Second input: a
response that parses but whose single item lacks `property_code`; the
rendering loop raises `KeyError` instead of returning a string. -/
theorem C4_counterexample :
    (scoringPhase "```json \x7b" [] 3 =
        .ret "ERROR: Failed to parse apartment scores JSON\nRaw: \x7b" ∧
      pyIn "```json \x7b"
        "ERROR: Failed to parse apartment scores JSON\nRaw: \x7b" = false) ∧
      scoringPhase "\x7b\"apartments\": [\x7b\"x\": 1\x7d]\x7d" [] 3 =
        .raised "KeyError: property_code" := by
  refine ⟨⟨?_, ?_⟩, ?_⟩ <;> decide

/-- C4 (amended): a scoring response that cannot be parsed makes
`recommend_apartments` return (never raise) a labeled error string embedding
the offending output as transformed by `clean_json` — not the raw response;
a response that parses into score items missing a required key instead
raises `KeyError` out of the rendering loop. -/
theorem C4_parse_error_amended :
    ∀ (score_raw : String) (metas : List AptMeta) (k : Nat),
      pyStartsWith score_raw "ERROR" = false →
      jsonLoads (clean_json score_raw) = Option.none →
      scoringPhase score_raw metas k =
          .ret ("ERROR: Failed to parse apartment scores JSON\nRaw: " ++
            clean_json score_raw) ∧
        pyIn (clean_json score_raw)
          ("ERROR: Failed to parse apartment scores JSON\nRaw: " ++
            clean_json score_raw) = true := by
  intro score_raw metas k h1 h2
  constructor
  · unfold scoringPhase
    rw [h1]
    simp only [Bool.false_eq_true, if_false, h2]
  · exact pyIn_append_self "ERROR: Failed to parse apartment scores JSON\nRaw: " _

/-- C4 witness: the amended theorem applied to an unparseable plain-text
response. -/
theorem C4_parse_error_amended_witness :
    scoringPhase "garbage" [] 3 =
        .ret ("ERROR: Failed to parse apartment scores JSON\nRaw: " ++
          clean_json "garbage") ∧
      pyIn (clean_json "garbage")
        ("ERROR: Failed to parse apartment scores JSON\nRaw: " ++
          clean_json "garbage") = true :=
  C4_parse_error_amended "garbage" [] 3 (by decide) rfl

/-! ## C2: disambiguation fallback -/

/-- C2 counterexample: in `rag_backend1.recommend_apartments`, a
query-parsing response that cannot be decoded does not fall back to the raw
query — the orchestrator returns a labeled error outcome. -/
theorem C2_counterexample :
    (recommend_apartments_model "q" "not json" (.ok ([], [])) "" 3).1 =
        .ret "ERROR: Failed to parse apartment parse JSON\nRaw: not json" ∧
      pyStartsWith "ERROR: Failed to parse apartment parse JSON\nRaw: not json"
        "ERROR" = true := by
  constructor <;> decide

/-- C2 (amended): in `rag_backend.recommend`, a disambiguation response that
does not contain `ERROR` and yields no parsable JSON object falls back to
the whole raw query for both the apartment query and the user profile,
without an error outcome; in `rag_backend1.recommend_apartments`, the
analogous parse miss instead returns a labeled error string. -/
theorem C2_disambiguation_amended :
    (∀ query resp : String,
        pyIn "ERROR" resp = false → safe_json_parse resp = [] →
        disambiguate query resp = .proceed (.str query) (.str query)) ∧
      (∀ (query resp : String)
        (retrieval : Except String (List (List String) × List (List AptMeta)))
        (score : String) (k : Nat),
        pyStartsWith resp "ERROR" = false →
        jsonLoads (clean_json resp) = Option.none →
        (recommend_apartments_model query resp retrieval score k).1 =
          .ret ("ERROR: Failed to parse apartment parse JSON\nRaw: " ++ resp)) := by
  constructor
  · intro query resp h1 h2
    unfold disambiguate
    rw [h1]
    simp [h2, dictGet]
  · intro query resp retrieval score k h1 h2
    unfold recommend_apartments_model
    rw [h1]
    simp only [Bool.false_eq_true, if_false, h2]

/-- C2 witness: the amended theorem applied to a brace-free response (for
the fallback) and an unparseable parse response (for the error outcome). -/
theorem C2_disambiguation_amended_witness :
    disambiguate "find a flat" "no braces here" =
        .proceed (.str "find a flat") (.str "find a flat") ∧
      (recommend_apartments_model "q2" "plain text" (.ok ([], [])) "" 3).1 =
        .ret ("ERROR: Failed to parse apartment parse JSON\nRaw: " ++ "plain text") :=
  ⟨C2_disambiguation_amended.1 "find a flat" "no braces here" (by decide) rfl,
    C2_disambiguation_amended.2 "q2" "plain text" (.ok ([], [])) "" 3
      (by decide) rfl⟩

/-! ## C7: all candidates filtered out -/

/-- C7: when retrieval yields a non-empty candidate list but the
deterministic filter excludes every candidate, `recommend_roommates` returns
the fixed "no compatible candidates" string without calling the scoring LLM;
that string is neither an error outcome (no `ERROR` prefix) nor a rendered
top-k ranking (no `Top roommate matches:` prefix). -/
theorem C7_all_filtered_out :
    ∀ (docs : List String) (metas : List StudentMeta)
      (restD : List (List String)) (restM : List (List StudentMeta))
      (llm : String) (k : Nat),
      docs ≠ [] →
      filter_students docs metas = [] →
      recommend_roommates_model (.ok (docs :: restD, metas :: restM)) llm k =
          ("No compatible roommate candidates after basic filtering.", false) ∧
        pyStartsWith "No compatible roommate candidates after basic filtering."
          "ERROR" = false ∧
        pyStartsWith "No compatible roommate candidates after basic filtering."
          "Top roommate matches:" = false := by
  intro docs metas restD restM llm k _ hfil
  refine ⟨?_, by decide, by decide⟩
  unfold recommend_roommates_model
  simp [hfil]

/-- C7 witness: one retrieved candidate, allergic to dogs, hence filtered
out. -/
theorem C7_all_filtered_out_witness :
    recommend_roommates_model
        (.ok ([["doc1"]],
          [[{ emptyMeta with dog_friendliness := some "allergic to dogs" }]]))
        "Ana | 9 | fine" 3 =
      ("No compatible roommate candidates after basic filtering.", false) :=
  (C7_all_filtered_out ["doc1"]
    [{ emptyMeta with dog_friendliness := some "allergic to dogs" }] [] []
    "Ana | 9 | fine" 3 (by decide) (by decide)).1

/-! ## C8: no empty-query validation -/

/-- C8 counterexample: a recommendation call with empty query text is not
rejected — the very first action is the Gemini parse call (a network call)
carrying the empty query. -/
theorem C8_counterexample :
    (recommend_apartments_model "" "resp" (.ok ([], [])) "" 3).2.head? =
        some (.geminiParse "") ∧
      (recommend_apartments_model "" "resp" (.ok ([], [])) "" 3).2 ≠ [] := by
  constructor <;> decide

/-- C8 (amended): `recommend_apartments` performs no input validation —
for every query text (the empty string included) its first external action
is the Gemini parse call carrying that query. -/
theorem C8_no_validation_amended :
    ∀ (user_query parse_resp : String)
      (retrieval : Except String (List (List String) × List (List AptMeta)))
      (score_resp : String) (k : Nat),
      (recommend_apartments_model user_query parse_resp retrieval score_resp k).2.head? =
        some (.geminiParse user_query) := by
  intro q pr ret sr k
  unfold recommend_apartments_model
  by_cases h1 : pyStartsWith pr "ERROR" = true
  · rw [h1]
    rfl
  · rw [Bool.not_eq_true] at h1
    rw [h1]
    simp only [Bool.false_eq_true, if_false]
    cases hj : jsonLoads (clean_json pr) with
    | none => rfl
    | some v =>
      cases v with
      | obj parsed =>
        cases ret with
        | error e => rfl
        | ok pair =>
          by_cases hd : pair.1.isEmpty = true
          · simp [hd]
          · rw [Bool.not_eq_true] at hd
            simp [hd]
      | null => rfl
      | bool b => rfl
      | num v => rfl
      | str s => rfl
      | arr l => rfl

/-! ## C9: embedding normalization -/

/-- C9 counterexample: two `encode` call sites omit
`normalize_embeddings=True` — the store path of `embeddings.build_chroma_db`
and the query path of `llm_pipeline.get_recommendations`; with a model whose
raw vector for a description is `[2, 0]`, `build_chroma_db` stores `[2, 0]`,
whose squared norm is 4, not 1. -/
theorem C9_counterexample :
    ((encodeCallSites.filter fun c => !c.normalize_embeddings).map
        EncodeCallSite.file = ["embeddings.py", "llm_pipeline.py"]) ∧
      build_chroma_db_embedding ⟨fun _ => [2, 0], fun _ => [1, 0]⟩ "desc" = [2, 0] ∧
      sumSq [2, 0] ≠ 1 := by
  refine ⟨by decide, rfl, ?_⟩
  simp [sumSq]
  norm_num

/-- C9 (amended): the query paths of `rag_backend.py` / `rag_backend1.py` /
`app.py` and the ingestion paths of `embed_index.py` / `embed_index_V2.py` /
`extract_students_metadata.py` all pass `normalize_embeddings=True`, so
those embeddings are the model's L2-normalized outputs; the legacy prototype
paths `embeddings.build_chroma_db` (store) and
`llm_pipeline.get_recommendations` (query) omit the flag and therefore
store/query the model's raw, not-necessarily-unit-norm vectors. -/
theorem C9_normalization_amended :
    ((encodeCallSites.filter fun c => c.normalize_embeddings).map
        EncodeCallSite.file =
      ["rag_backend.py", "rag_backend1.py", "embed_index.py", "embed_index_V2.py",
        "extract_students_metadata.py", "app.py"]) ∧
      (∀ (m : STModel) (text : String),
        rag_backend_embed_query m text = m.normalized text) ∧
      (∀ (m : STModel) (text : String),
        build_chroma_db_embedding m text = m.raw text) ∧
      (∀ (m : STModel) (text : String),
        llm_pipeline_query_embedding m text = m.raw text) :=
  ⟨by decide, fun m text => rfl, fun m text => rfl, fun m text => rfl⟩

end RoomEase
